import Mathlib

/-!
Verification of the solar power-management controller
(src/solar_power_management/application.py, config in app_config.py).

Voltages and timestamps are embedded as rationals (the source uses Python
floats; every comparison relevant here is far from any representation
boundary), durations as naturals, and elapsed/relative times as integers
where the source does integer arithmetic.  The mutable `PowerManager`
attributes touched by the scheduler are gathered in `SchedState`; platform
reads (voltage, immunity, clock, config) are passed in explicitly through
`Env`, and the outward calls a step performs are returned as an explicit
effect list.
-/

namespace PowerManagement

/-- A threshold-table entry `(voltage_threshold, duration)`, as produced by
`PowerManagerConfig.sleep_time_threshold_lookup` /
`min_awake_time_threshold_lookup` (app_config.py). -/
abbrev Entry : Type := ℚ × ℕ

/-- Ordering used by `sorted(..., key=lambda x: x[0])`: compare entries by
their voltage threshold only. -/
def keyLE (a b : Entry) : Prop := a.1 ≤ b.1

instance : DecidableRel keyLE := fun a b => inferInstanceAs (Decidable (a.1 ≤ b.1))

instance : IsTotal Entry keyLE := ⟨fun a b => le_total a.1 b.1⟩

instance : IsTrans Entry keyLE := ⟨fun _ _ _ h h2 => le_trans h h2⟩

/-- Python's `sorted(lookup, key=lambda x: x[0])`: a stable sort of the
entries, ascending by voltage threshold. -/
def sortEntries (l : List Entry) : List Entry := List.insertionSort keyLE l

/-- `PowerManager.get_sleep_time` (application.py lines 73-82): `None` when no
voltage was ever accepted; otherwise scan the lookup sorted ascending by
threshold and return `sleep_time * 60` of the first entry with
`last_voltage <= voltage`; falling off the loop returns `None`. -/
def get_sleep_time (last_voltage : Option ℚ) (lookup : List Entry) : Option ℕ :=
  match last_voltage with
  | none => none
  | some v =>
    ((sortEntries lookup).find? fun e => decide (v ≤ e.1)).map fun e => e.2 * 60

/-- The floor constant `abs_min_awake_time = 90` of
`PowerManager.get_min_awake_time` (application.py line 85). -/
def abs_min_awake_time : ℕ := 90

/-- The schema default of `AwakeTimeThresholds.awake_time`
(`config.Integer(..., default=90)`, app_config.py line 39), read as
`self.config.min_awake_time_thresholds.element.awake_time.default`. -/
def min_awake_time_element_default : ℕ := 90

/-- `PowerManager.get_min_awake_time` (application.py lines 84-100): with no
voltage, `max(config default, abs_min_awake_time)`; otherwise the first
matching entry of the sorted lookup clamped by
`max(abs_min_awake_time, awake_time)`, and `abs_min_awake_time` when no
entry matches. -/
def get_min_awake_time (last_voltage : Option ℚ) (lookup : List Entry) : ℕ :=
  match last_voltage with
  | none => max min_awake_time_element_default abs_min_awake_time
  | some v =>
    match (sortEntries lookup).find? fun e => decide (v ≤ e.1) with
    | some e => max abs_min_awake_time e.2
    | none => abs_min_awake_time

/-- The two mutable scheduling attributes of `PowerManager` (application.py
lines 24-26): the committed sleep duration in seconds and the timestamp at
which to go to sleep. -/
structure SchedState where
  scheduled_sleep_time : Option ℕ
  scheduled_goto_sleep_time : Option ℚ
deriving DecidableEq

/-- Outward calls a scheduler step performs: the
`set_global_tag_async("shutdown_requested", True)` broadcast and the
`ui.update_connection_info(period, next)` publication. -/
inductive Effect : Type where
  | broadcastShutdownRequested : Effect
  | uiConnectionInfo (period : ℕ) (next : ℤ) : Effect
deriving DecidableEq

/-- Result of one `maybe_schedule_sleep` call: the updated scheduler state,
the effects issued, and whether the call raised (the source computes
`time_till_sleep + sleep_time` for the UI, a `TypeError` when `sleep_time`
is `None`; the state assignments on lines 143-144 have already happened by
then). -/
structure StepResult where
  state : SchedState
  effects : List Effect
  raised : Bool
deriving DecidableEq

/-- The platform/config inputs one scheduler tick reads: the clock, the
elapsed awake time `int(time.time() - start_time)`, the accepted voltage,
the minimum-awake lookup table, `override_shutdown_permission_mins`, the
ballot consensus, and the raw platform immunity reading. -/
structure Env where
  now : ℚ
  awake_time : ℤ
  last_voltage : Option ℚ
  min_awake_lookup : List Entry
  override_shutdown_permission_mins : ℤ
  shutdown_permitted : Bool
  immunity_raw : Option ℚ

/-- `PowerManager.get_immunity_time` (application.py lines 170-174): a
reported duration of at most 1 second is replaced by `None`. -/
def get_immunity_time (raw : Option ℚ) : Option ℚ :=
  match raw with
  | none => none
  | some s => if s ≤ 1 then none else some s

/-- `PowerManager.maybe_schedule_sleep` (application.py lines 109-146),
with `time_till_sleep` the parameter defaulted to 20 at both call sites.
Guards in source order: pending-sleep no-op; minimum-awake wait; broadcast;
ballot override window; immunity; then the commit of both scheduling
attributes and the UI publication. -/
def maybe_schedule_sleep (s : SchedState) (env : Env) (sleep_time : Option ℕ)
    (time_till_sleep : ℤ) : StepResult :=
  if s.scheduled_goto_sleep_time.isSome then
    ⟨s, [], false⟩
  else if env.awake_time <
      (get_min_awake_time env.last_voltage env.min_awake_lookup : ℤ) - time_till_sleep then
    ⟨s, [], false⟩
  else
    let effs := [Effect.broadcastShutdownRequested]
    let config_override_secs : ℤ := env.override_shutdown_permission_mins * 60 - 300
    if env.shutdown_permitted = false ∧ env.awake_time < config_override_secs then
      ⟨s, effs, false⟩
    else
      match get_immunity_time env.immunity_raw with
      | some _ => ⟨s, effs, false⟩
      | none =>
        let s2 : SchedState :=
          ⟨sleep_time, some (env.now + (time_till_sleep : ℚ))⟩
        match sleep_time with
        | some st => ⟨s2, effs ++ [Effect.uiConnectionInfo st (time_till_sleep + st)], false⟩
        | none => ⟨s2, effs, true⟩

/-- `PowerManager.is_ready_to_sleep` (application.py lines 154-158). -/
def is_ready_to_sleep (s : SchedState) (now : ℚ) : Bool :=
  match s.scheduled_goto_sleep_time with
  | none => false
  | some t => decide (t ≤ now)

/-- `PowerManager.schedule_next_startup` (application.py lines 176-181): fall
back to a fresh `get_sleep_time` lookup when no duration was committed, then
pass the result to `platform_iface.schedule_startup_async`.  The second
component is exactly the argument handed to that platform wake-arm call. -/
def schedule_next_startup (s : SchedState) (sleep_lookup : List Entry)
    (last_voltage : Option ℚ) : SchedState × Option ℕ :=
  let st := match s.scheduled_sleep_time with
    | none => get_sleep_time last_voltage sleep_lookup
    | some v => some v
  (⟨st, s.scheduled_goto_sleep_time⟩, st)

/-- Result of one `assess_power` tick (application.py lines 183-209):
`went_to_sleep` marks the `is_ready_to_sleep` branch (hand-off to
`go_to_sleep`), `attempted_schedule` marks that `maybe_schedule_sleep` was
reached. -/
structure AssessResult where
  state : SchedState
  went_to_sleep : Bool
  attempted_schedule : Bool
  effects : List Effect
  raised : Bool
deriving DecidableEq

/-- `PowerManager.assess_power` (application.py lines 183-209), after
`update_voltage` has run (the refreshed voltage is `env.last_voltage`):
dispatch to `go_to_sleep` when ready, otherwise look up the sleep duration
and return early when it is `None`, otherwise attempt to schedule it. -/
def assess_power (s : SchedState) (env : Env) (sleep_lookup : List Entry) : AssessResult :=
  if is_ready_to_sleep s env.now then
    ⟨s, true, false, [], false⟩
  else
    match get_sleep_time env.last_voltage sleep_lookup with
    | none => ⟨s, false, false, [], false⟩
    | some st =>
      let r := maybe_schedule_sleep s env (some st) 20
      ⟨r.state, false, true, r.effects, r.raised⟩

/-- A value of the shared tag map `self._tag_values`: either not a dict
(skipped by `shutdown_permitted`) or a dict whose `shutdown_check_ok` entry
is absent, `True` or `False`. -/
inductive TagValue : Type where
  | nondict : TagValue
  | dict (shutdown_check_ok : Option Bool) : TagValue
deriving DecidableEq

/-- Whether one tag value vetoes shutdown:
`isinstance(v, dict) and v.get("shutdown_check_ok", True) is False`. -/
def tagDenies : TagValue → Bool
  | TagValue.dict (some false) => true
  | _ => false

/-- The effective per-voter flag: an explicit vote where present, implicit
permission otherwise (and for non-dict values). -/
def voterFlag : TagValue → Bool
  | TagValue.dict (some b) => b
  | _ => true

/-- `PowerManager.shutdown_permitted` (application.py lines 160-168): scan
the tag map and deny as soon as some dict value carries an explicit
`shutdown_check_ok = False`; otherwise permit. -/
def shutdown_permitted {κ : Type} (tags : List (κ × TagValue)) : Bool :=
  !(tags.any fun kv => tagDenies kv.2)

/-- `watchdog_reset_interval_secs = 20` (application.py line 30). -/
def watchdog_reset_interval_secs : ℚ := 20

/-- Result of `maybe_reset_soft_watchdog`: the (possibly updated)
`last_watchdog_reset_time` and whether a platform re-arm was attempted. -/
structure WatchdogResult where
  last : Option ℚ
  attempted : Bool
deriving DecidableEq

/-- `PowerManager.maybe_reset_soft_watchdog` (application.py lines 259-280):
attempt a re-arm when no re-arm has succeeded yet or more than the reset
interval has elapsed since the last success; `platform_ok` is whether
`schedule_shutdown_async` succeeds — on failure the exception is caught and
`last_watchdog_reset_time` is left unchanged. -/
def maybe_reset_soft_watchdog (now : ℚ) (last : Option ℚ) (platform_ok : Bool) :
    WatchdogResult :=
  let flag := match last with
    | some t => decide (now - t > watchdog_reset_interval_secs)
    | none => true
  if flag then
    if platform_ok then ⟨some now, true⟩ else ⟨last, true⟩
  else
    ⟨last, false⟩

/-- The `Regular (12V)` profile's sleep-threshold lookup
(app_config.py lines 60-64), durations in minutes. -/
def regular_12v_sleep_lookup : List Entry := [(13.2, 25), (12.9, 60), (12.6, 240)]

/-- The `Regular (12V)` profile's minimum-awake lookup
(app_config.py lines 65-69), durations in seconds. -/
def regular_12v_min_awake_lookup : List Entry := [(13.2, 240), (12.9, 120), (12.6, 90)]

/-- The both-set-or-both-unset invariant claimed for the two scheduling
attributes. -/
def bothOrNeither (s : SchedState) : Prop :=
  (s.scheduled_sleep_time = none ↔ s.scheduled_goto_sleep_time = none)

/-- Tick inputs for the C1 scenario: voltage 13.5 V (above every threshold of
the `Regular (12V)` profile), 400 s awake, ballot permitting, no immunity,
clock at 1000. -/
def envC1 : Env := ⟨1000, 400, some 13.5, regular_12v_min_awake_lookup, 10, true, none⟩

/-- Tick inputs for the C2 scenario: no accepted voltage, empty minimum-awake
table, 400 s awake, ballot permitting, no immunity. -/
def envC2 : Env := ⟨1000, 400, none, [], 10, true, none⟩

/-- Tick inputs for the C3 scenario: ballot denying,
`override_shutdown_permission_mins = 10`, 400 s awake, no immunity. -/
def envC3 : Env := ⟨1000, 400, none, [], 10, false, none⟩

/-- Tick inputs for the C7 witness. -/
def envC7 : Env := ⟨1000, 400, none, [], 10, true, none⟩

/-- Tick inputs for the C8 witness: platform reports 2 s of immunity. -/
def envC8 : Env := ⟨1000, 400, none, [], 10, true, some 2⟩

/-- Tick inputs for the C10 witness: no accepted voltage. -/
def envC10 : Env := ⟨1000, 400, none, [], 10, true, none⟩

theorem voterFlag_eq_not_tagDenies (t : TagValue) : voterFlag t = !tagDenies t := by
  cases t with
  | nondict => rfl
  | dict f =>
    cases f with
    | none => rfl
    | some b => cases b <;> rfl

theorem tagDenies_eq_true_iff (t : TagValue) :
    tagDenies t = true ↔ t = TagValue.dict (some false) := by
  cases t with
  | nondict => simp [tagDenies]
  | dict f =>
    cases f with
    | none => simp [tagDenies]
    | some b => cases b <;> simp [tagDenies]

theorem find?_sortEntries_eq_none_of_all_lt (lookup : List Entry) (lv : ℚ)
    (h : ∀ e ∈ lookup, e.1 < lv) :
    (sortEntries lookup).find? (fun e => decide (lv ≤ e.1)) = none := by
  rw [List.find?_eq_none]
  intro e he
  have hm : e ∈ lookup := (List.perm_insertionSort keyLE lookup).mem_iff.mp he
  simpa using not_le_of_lt (h e hm)

/-- C4 (counterexample): on the `Regular (12V)` table the claim's scenario
"voltage 12.95 yields 60 minutes" is false — `12.95 > 12.9`, so the first
sorted entry with threshold ≥ 12.95 is `(13.2, 25)` and the lookup yields
25 minutes (1500 seconds), not 60 minutes. -/
theorem get_sleep_time_at_12_95_not_60min :
    get_sleep_time (some 12.95) regular_12v_sleep_lookup = some (25 * 60) ∧
    get_sleep_time (some 12.95) regular_12v_sleep_lookup ≠ some (60 * 60) := by
  constructor <;>
    norm_num [get_sleep_time, sortEntries, regular_12v_sleep_lookup, keyLE,
      List.insertionSort, List.orderedInsert, List.find?]

/-- C4 (amended): the sleep-duration lookup scans the table sorted ascending
by threshold (a sorted permutation of the entries) and returns the duration
of the first entry whose threshold is ≥ the voltage, in seconds; it returns
`none` when the voltage exceeds every threshold.  On the table
`{13.2V:25min, 12.9V:60min, 12.6V:240min}`: 13.0 yields 25 min, 12.95 yields
25 min (not 60 min as claimed), 12.0 yields 240 min, 13.5 yields no
decision. -/
theorem get_sleep_time_spec :
    (∀ lookup : List Entry,
      List.Sorted keyLE (sortEntries lookup) ∧ (sortEntries lookup).Perm lookup) ∧
    (∀ (lv : ℚ) (lookup : List Entry),
      get_sleep_time (some lv) lookup =
        ((sortEntries lookup).find? fun e => decide (lv ≤ e.1)).map fun e => e.2 * 60) ∧
    (∀ (lv : ℚ) (lookup : List Entry),
      (∀ e ∈ lookup, e.1 < lv) → get_sleep_time (some lv) lookup = none) ∧
    get_sleep_time (some 13.0) regular_12v_sleep_lookup = some (25 * 60) ∧
    get_sleep_time (some 12.95) regular_12v_sleep_lookup = some (25 * 60) ∧
    get_sleep_time (some 12.0) regular_12v_sleep_lookup = some (240 * 60) ∧
    get_sleep_time (some 13.5) regular_12v_sleep_lookup = none := by
  refine ⟨fun lookup => ⟨List.sorted_insertionSort keyLE lookup,
    List.perm_insertionSort keyLE lookup⟩, fun lv lookup => rfl, ?_, ?_, ?_, ?_, ?_⟩
  · intro lv lookup h
    simp [get_sleep_time, find?_sortEntries_eq_none_of_all_lt lookup lv h]
  all_goals
    norm_num [get_sleep_time, sortEntries, regular_12v_sleep_lookup, keyLE,
      List.insertionSort, List.orderedInsert, List.find?]

/-- C5: `get_min_awake_time` is clamped to at least the absolute floor of
90 seconds for every voltage (including none) and every lookup table, and
with an empty table it returns exactly 90 regardless of voltage — the
configuration can only raise, never lower, the effective minimum. -/
theorem get_min_awake_time_floor :
    (∀ (lv : Option ℚ) (lookup : List Entry), 90 ≤ get_min_awake_time lv lookup) ∧
    (∀ lv : Option ℚ, get_min_awake_time lv [] = 90) := by
  constructor
  · intro lv lookup
    cases lv with
    | none =>
      simp [get_min_awake_time, abs_min_awake_time]
    | some v =>
      simp only [get_min_awake_time]
      cases h : (sortEntries lookup).find? fun e => decide (v ≤ e.1) with
      | none => simp [abs_min_awake_time]
      | some e => simp [abs_min_awake_time]
  · intro lv
    cases lv <;> rfl

/-- C6: ballot consensus is the AND over all known voter flags (absent flags
and non-dict values count as implicit permission): it is `false` iff some
entry carries an explicit `shutdown_check_ok = False`, and it is vacuously
`true` on the empty map. -/
theorem shutdown_permitted_iff :
    (∀ (κ : Type) (tags : List (κ × TagValue)),
      shutdown_permitted tags = tags.all (fun kv => voterFlag kv.2) ∧
      (shutdown_permitted tags = false ↔
        ∃ kv ∈ tags, kv.2 = TagValue.dict (some false))) ∧
    shutdown_permitted ([] : List (ℕ × TagValue)) = true := by
  refine ⟨fun κ tags => ⟨?_, ?_⟩, rfl⟩
  · induction tags with
    | nil => rfl
    | cons kv rest ih =>
      simp only [shutdown_permitted, List.any_cons, List.all_cons, Bool.not_or,
        voterFlag_eq_not_tagDenies] at *
      rw [ih]
  · simp [shutdown_permitted, List.any_eq_true, tagDenies_eq_true_iff]

/-- C1 (code evaluated at the failing input): with voltage 13.5 V — above
every `Regular (12V)` sleep threshold — `main_loop`'s shutdown-requested path
calls `maybe_schedule_sleep(get_sleep_time())`, i.e. with a `None` duration;
the commit still sets the wake-at timestamp, and the subsequent
`schedule_next_startup` falls back to a fresh lookup that is again `None`,
so the platform wake-arm call `schedule_startup_async` receives `None`. -/
theorem wake_arm_receives_none :
    get_sleep_time (some 13.5) regular_12v_sleep_lookup = none ∧
    (maybe_schedule_sleep ⟨none, none⟩ envC1
        (get_sleep_time (some 13.5) regular_12v_sleep_lookup) 20).state =
      ⟨none, some 1020⟩ ∧
    (schedule_next_startup
        (maybe_schedule_sleep ⟨none, none⟩ envC1
          (get_sleep_time (some 13.5) regular_12v_sleep_lookup) 20).state
        regular_12v_sleep_lookup (some 13.5)).2 = none := by
  have h135 : get_sleep_time (some 13.5) regular_12v_sleep_lookup = none := by
    norm_num [get_sleep_time, sortEntries, regular_12v_sleep_lookup, keyLE,
      List.insertionSort, List.orderedInsert, List.find?]
  have hmin : get_min_awake_time (some 13.5) regular_12v_min_awake_lookup = 90 := by
    norm_num [get_min_awake_time, sortEntries, regular_12v_min_awake_lookup, keyLE,
      List.insertionSort, List.orderedInsert, List.find?, abs_min_awake_time]
  have hstep : (maybe_schedule_sleep ⟨none, none⟩ envC1 none 20).state =
      ⟨none, some 1020⟩ := by
    norm_num [maybe_schedule_sleep, envC1, get_min_awake_time, sortEntries,
      regular_12v_min_awake_lookup, keyLE, List.insertionSort, List.orderedInsert,
      List.find?, abs_min_awake_time, get_immunity_time]
  rw [h135]
  exact ⟨rfl, hstep, by rw [hstep]; simp [schedule_next_startup, h135]⟩

/-- C2 (counterexample): from the initial state, one `maybe_schedule_sleep`
call with a `None` sleep duration — exactly what `main_loop` passes when
`get_sleep_time()` finds no entry — leaves `scheduled_goto_sleep_time` set
and `scheduled_sleep_time` unset, so the both-or-neither invariant is false
in a reachable state. -/
theorem sched_invariant_cex :
    (maybe_schedule_sleep ⟨none, none⟩ envC2 none 20).state.scheduled_sleep_time = none ∧
    (maybe_schedule_sleep ⟨none, none⟩ envC2 none 20).state.scheduled_goto_sleep_time =
      some 1020 ∧
    ¬ bothOrNeither (maybe_schedule_sleep ⟨none, none⟩ envC2 none 20).state := by
  have hstep : (maybe_schedule_sleep ⟨none, none⟩ envC2 none 20).state =
      ⟨none, some 1020⟩ := by
    norm_num [maybe_schedule_sleep, envC2, get_min_awake_time, get_immunity_time,
      min_awake_time_element_default, abs_min_awake_time, max_self, sup_idem]
  rw [hstep]
  simp [bothOrNeither]

/-- C2 (amended): `scheduled_sleep_time` and `scheduled_goto_sleep_time` are
set together by every `maybe_schedule_sleep` call whose sleep-duration
argument is not `None` (the `assess_power` path), and `schedule_next_startup`
preserves the invariant whenever a wake-at time is pending; but a
`maybe_schedule_sleep` call with a `None` duration (the `shutdown_requested`
path of `main_loop`) sets the wake-at timestamp alone. -/
theorem sched_invariant_preserved :
    (∀ (s : SchedState) (env : Env) (d : ℕ) (ttl : ℤ),
      bothOrNeither s → bothOrNeither (maybe_schedule_sleep s env (some d) ttl).state) ∧
    (∀ (s : SchedState) (lookup : List Entry) (lv : Option ℚ) (t : ℚ),
      s.scheduled_goto_sleep_time = some t → bothOrNeither s →
      bothOrNeither (schedule_next_startup s lookup lv).1) := by
  constructor
  · intro s env d ttl h
    by_cases h1 : s.scheduled_goto_sleep_time.isSome
    · simpa [maybe_schedule_sleep, h1] using h
    · by_cases h2 : env.awake_time <
          (get_min_awake_time env.last_voltage env.min_awake_lookup : ℤ) - ttl
      · simpa [maybe_schedule_sleep, h1, h2] using h
      · by_cases h3 : env.shutdown_permitted = false ∧
            env.awake_time < env.override_shutdown_permission_mins * 60 - 300
        · simpa [maybe_schedule_sleep, h1, h2, h3] using h
        · cases h4 : get_immunity_time env.immunity_raw with
          | some i => simpa [maybe_schedule_sleep, h1, h2, h3, h4] using h
          | none => simp [maybe_schedule_sleep, h1, h2, h3, h4, bothOrNeither]
  · intro s lookup lv t ht h
    cases hs : s.scheduled_sleep_time with
    | none =>
      exfalso
      have hgoto := h.mp hs
      rw [ht] at hgoto
      exact Option.noConfusion hgoto
    | some v =>
      simp [schedule_next_startup, hs, bothOrNeither, ht]

/-- C3 (counterexample): with `override_shutdown_permission_mins = 10` and
400 s awake — less than the configured 600 s timeout — a ballot denial does
not defer: the code's guard compares against `10*60 - 300 = 300` seconds, so
the sleep is committed despite the explicit `False` vote. -/
theorem override_denial_cex :
    envC3.shutdown_permitted = false ∧
    envC3.awake_time < envC3.override_shutdown_permission_mins * 60 ∧
    (maybe_schedule_sleep ⟨none, none⟩ envC3 (some 1500) 20).state.scheduled_goto_sleep_time =
      some 1020 := by
  refine ⟨rfl, by norm_num [envC3], ?_⟩
  norm_num [maybe_schedule_sleep, envC3, get_min_awake_time, get_immunity_time,
    min_awake_time_element_default, abs_min_awake_time, max_self, sup_idem]

/-- C3 (amended): the ballot-denial window is `override_shutdown_permission_mins
* 60 - 300` seconds of awake time (the configured minutes less a fixed
5-minute margin), not the configured minutes themselves: with the other
guards passed, a denial defers exactly while `awake_time` is below that
threshold, and from that threshold on the denial is overridden and the sleep
committed. -/
theorem override_window_spec (s : SchedState) (env : Env) (d : Option ℕ) (ttl : ℤ)
    (hg : s.scheduled_goto_sleep_time = none)
    (hm : ¬ env.awake_time <
      (get_min_awake_time env.last_voltage env.min_awake_lookup : ℤ) - ttl)
    (hp : env.shutdown_permitted = false)
    (hi : env.immunity_raw = none) :
    (maybe_schedule_sleep s env d ttl).state =
      if env.awake_time < env.override_shutdown_permission_mins * 60 - 300 then s
      else ⟨d, some (env.now + (ttl : ℚ))⟩ := by
  by_cases h : env.awake_time < env.override_shutdown_permission_mins * 60 - 300
  · simp [maybe_schedule_sleep, hg, hm, hp, h]
  · cases d with
    | some st => simp [maybe_schedule_sleep, hg, hm, hp, h, hi, get_immunity_time]
    | none => simp [maybe_schedule_sleep, hg, hm, hp, h, hi, get_immunity_time]

/-- C3 witness: the amended window theorem applied at the counterexample's
concrete inputs. -/
theorem override_window_spec_witness :
    (maybe_schedule_sleep ⟨none, none⟩ envC3 (some 1500) 20).state =
      if envC3.awake_time < envC3.override_shutdown_permission_mins * 60 - 300 then
        (⟨none, none⟩ : SchedState)
      else ⟨some 1500, some (envC3.now + ((20 : ℤ) : ℚ))⟩ :=
  override_window_spec ⟨none, none⟩ envC3 (some 1500) 20 rfl (by decide) rfl rfl

/-- C7: once a wake-at timestamp is committed, any further
`maybe_schedule_sleep` call before that time returns immediately: the state
is unchanged, no effect is issued and nothing is re-derived, regardless of
the arguments. -/
theorem pending_sleep_noop (s : SchedState) (env : Env) (d : Option ℕ) (ttl : ℤ)
    (t : ℚ) (h : s.scheduled_goto_sleep_time = some t) (_ht : env.now < t) :
    maybe_schedule_sleep s env d ttl = ⟨s, [], false⟩ := by
  simp [maybe_schedule_sleep, h]

/-- C7 witness: a concrete pending state (wake at 1020, clock at 1000) and a
call with fresh arguments leave everything untouched. -/
theorem pending_sleep_noop_witness :
    maybe_schedule_sleep ⟨some 1500, some 1020⟩ envC7 (some 300) 20 =
      ⟨⟨some 1500, some 1020⟩, [], false⟩ :=
  pending_sleep_noop ⟨some 1500, some 1020⟩ envC7 (some 300) 20 1020 rfl
    (by norm_num [envC7])

/-- C8: a platform-reported immunity strictly greater than 1 s defers the
commit entirely — the scheduler state is unchanged even when every other
guard passes — while reported values of at most 1 s are filtered to `None`
by `get_immunity_time` and values above 1 s are kept. -/
theorem immunity_defers (s : SchedState) (env : Env) (d : Option ℕ) (ttl : ℤ) (i : ℚ)
    (hg : s.scheduled_goto_sleep_time = none)
    (hm : ¬ env.awake_time <
      (get_min_awake_time env.last_voltage env.min_awake_lookup : ℤ) - ttl)
    (hi : env.immunity_raw = some i) (h1 : 1 < i) :
    (maybe_schedule_sleep s env d ttl).state = s ∧
    (maybe_schedule_sleep s env d ttl).raised = false ∧
    (∀ j : ℚ, j ≤ 1 → get_immunity_time (some j) = none) ∧
    (∀ j : ℚ, 1 < j → get_immunity_time (some j) = some j) := by
  have him : get_immunity_time env.immunity_raw = some i := by
    rw [hi]
    simp [get_immunity_time, not_le.mpr h1]
  have hmain : (maybe_schedule_sleep s env d ttl).state = s ∧
      (maybe_schedule_sleep s env d ttl).raised = false := by
    by_cases ho : env.shutdown_permitted = false ∧
        env.awake_time < env.override_shutdown_permission_mins * 60 - 300
    · constructor <;> simp [maybe_schedule_sleep, hg, hm, ho]
    · constructor <;> simp [maybe_schedule_sleep, hg, hm, ho, him]
  exact ⟨hmain.1, hmain.2, fun j hj => by simp [get_immunity_time, hj],
    fun j hj => by simp [get_immunity_time, not_le.mpr hj]⟩

/-- C8 witness: the immunity theorem at a reported 2 s of immunity. -/
theorem immunity_defers_witness :
    (maybe_schedule_sleep ⟨none, none⟩ envC8 (some 1500) 20).state = ⟨none, none⟩ ∧
    (maybe_schedule_sleep ⟨none, none⟩ envC8 (some 1500) 20).raised = false ∧
    (∀ j : ℚ, j ≤ 1 → get_immunity_time (some j) = none) ∧
    (∀ j : ℚ, 1 < j → get_immunity_time (some j) = some j) :=
  immunity_defers ⟨none, none⟩ envC8 (some 1500) 20 2 rfl (by decide) rfl one_lt_two

/-- C9: the soft-watchdog re-arm is attempted exactly when no re-arm has yet
succeeded or more than the 20 s reset interval has elapsed since the last
success; a failed platform call leaves `last_watchdog_reset_time` unchanged
(so the next tick retries), a successful attempt stamps it to now, and
within the reset interval of a success nothing is attempted at all. -/
theorem watchdog_rearm_spec (now : ℚ) (last : Option ℚ) (ok : Bool) :
    ((maybe_reset_soft_watchdog now last ok).attempted = true ↔
      last = none ∨ ∃ t, last = some t ∧ watchdog_reset_interval_secs < now - t) ∧
    (ok = false → (maybe_reset_soft_watchdog now last ok).last = last) ∧
    ((maybe_reset_soft_watchdog now last ok).attempted = true → ok = true →
      (maybe_reset_soft_watchdog now last ok).last = some now) ∧
    (∀ t, last = some t → now - t ≤ watchdog_reset_interval_secs →
      maybe_reset_soft_watchdog now last ok = ⟨last, false⟩) := by
  cases last with
  | none =>
    cases ok <;> simp [maybe_reset_soft_watchdog]
  | some t =>
    by_cases h : watchdog_reset_interval_secs < now - t
    · cases ok with
      | true =>
        have hval : maybe_reset_soft_watchdog now (some t) true = ⟨some now, true⟩ := by
          simp [maybe_reset_soft_watchdog, gt_iff_lt, h]
        rw [hval]
        refine ⟨iff_of_true rfl (Or.inr ⟨t, rfl, h⟩), fun hko => Bool.noConfusion hko,
          fun _ _ => rfl, fun t2 ht2 hle => ?_⟩
        obtain rfl := Option.some.inj ht2
        exact absurd h (not_lt.mpr hle)
      | false =>
        have hval : maybe_reset_soft_watchdog now (some t) false = ⟨some t, true⟩ := by
          simp [maybe_reset_soft_watchdog, gt_iff_lt, h]
        rw [hval]
        refine ⟨iff_of_true rfl (Or.inr ⟨t, rfl, h⟩), fun _ => rfl,
          fun _ hko => Bool.noConfusion hko, fun t2 ht2 hle => ?_⟩
        obtain rfl := Option.some.inj ht2
        exact absurd h (not_lt.mpr hle)
    · have hval : maybe_reset_soft_watchdog now (some t) ok = ⟨some t, false⟩ := by
        simp [maybe_reset_soft_watchdog, gt_iff_lt, h]
      rw [hval]
      refine ⟨?_, fun _ => rfl, fun hat => Bool.noConfusion hat, fun t2 ht2 hle => rfl⟩
      refine iff_of_false (by simp) ?_
      rintro (hnone | ⟨t2, ht2, hlt⟩)
      · exact Option.noConfusion hnone
      · obtain rfl := Option.some.inj ht2
        exact absurd hlt h

/-- C10: with no accepted voltage sample, `get_sleep_time` is `None` and
`assess_power` returns without reaching `maybe_schedule_sleep`: the
scheduler state is untouched, so an unknown voltage can never commit a
sleep schedule. -/
theorem unknown_voltage_never_schedules (s : SchedState) (env : Env)
    (lookup : List Entry) (hv : env.last_voltage = none) :
    get_sleep_time env.last_voltage lookup = none ∧
    (assess_power s env lookup).attempted_schedule = false ∧
    (assess_power s env lookup).state = s := by
  have h0 : get_sleep_time env.last_voltage lookup = none := by
    rw [hv]
    rfl
  refine ⟨h0, ?_, ?_⟩ <;>
  · by_cases hr : is_ready_to_sleep s env.now = true <;> simp [assess_power, hr, h0]

/-- C10 witness: a tick from the initial state with no voltage sample. -/
theorem unknown_voltage_never_schedules_witness :
    get_sleep_time envC10.last_voltage regular_12v_sleep_lookup = none ∧
    (assess_power ⟨none, none⟩ envC10 regular_12v_sleep_lookup).attempted_schedule =
      false ∧
    (assess_power ⟨none, none⟩ envC10 regular_12v_sleep_lookup).state = ⟨none, none⟩ :=
  unknown_voltage_never_schedules ⟨none, none⟩ envC10 regular_12v_sleep_lookup rfl

end PowerManagement
